import Mathlib

/-!
# CIP monitoring firmware: acquisition pipeline

A shallow embedding of `modules/sensor_manager/sensor_manager.c`,
`modules/adc_manager/adc_manager.c` and `src/main.c`.

* `float` values are modelled by exact rationals (`ℚ`): comparisons and
  arithmetic are those of the rational numbers, so rounding, infinities and
  NaN are outside that model. Where the arithmetic of the conversion itself
  is at stake, `convert_linear_interpolation_binary32` gives the same function
  on a model of IEEE 754 binary32 (`F32`), with rounding, infinities and NaN.
* The module-level statics of `adc_manager.c` (`is_initialized`, `adc`) are an
  explicit `World` value threaded through every function, together with the
  ordered record of the calls made to the hardware, to the ADS1115 library and
  to the external collaborators (`hw`) and of the lines written with `printf`
  (`log`).
* Everything the hardware or an external collaborator answers is taken from an
  environment `Env`; an answer may depend on the whole history of calls.
* A pointer to a `float` or to a record is an `Option`: `none` is `NULL`,
  `some x` is a valid pointer whose target holds `x`; a function that writes
  through the pointer returns the new content of the target.
-/

namespace CIP

/-! ## Constants declared in headers that are not among the sources -/

/-- The compile-time constants the three source files use but which are declared
in headers outside them (`sensor_manager.h`, `adc_manager.h`, the project
configuration). They are parameters of the whole development. -/
structure Config where
  SENSOR_READ_ERROR : ℚ
  SENSOR_TEMPERATURE_MAX_VOLTAGE : ℚ
  SENSOR_TEMPERATURE_MAX_VALUE : ℚ
  SENSOR_TEMPERATURE_MIN_VALUE : ℚ
  SENSOR_CONDUCTIVITY_MAX_VOLTAGE : ℚ
  SENSOR_CONDUCTIVITY_MAX_VALUE : ℚ
  SENSOR_CONDUCTIVITY_MIN_VALUE : ℚ
  SENSOR_FLOW_MAX_VOLTAGE : ℚ
  SENSOR_FLOW_MAX_VALUE : ℚ
  SENSOR_FLOW_MIN_VALUE : ℚ
  ADC_CONNECTION_CHECK_TIMEOUT_MS : Nat
  CYCLE_INTERVAL_MS : Nat

/-! ## Calibration model (`sensor_manager.c`, lines 13-23) -/

/-- The function `convert_linear_interpolation` of `sensor_manager.c`. -/
def convert_linear_interpolation (cfg : Config)
    (v max_v max_value min_value : ℚ) : ℚ :=
  if v < 0 then
    cfg.SENSOR_READ_ERROR
  else if max_v = 0 then
    min_value
  else
    let value_range := max_value - min_value
    min_value + (v * (value_range / max_v))

/-! ## Binary32 arithmetic

The conversion computes in `float`. To state what its arithmetic returns, the
operations of IEEE 754 binary32 are modelled on exact rationals: a finite value
is a sign and a magnitude, every operation computes the exact result and rounds
it to nearest, ties to even, with 24 significant bits, least exponent `-126`
(subnormal numbers included) and overflow to infinity from `2 ^ 128` on. Each
operation of the source is rounded on its own (no wider intermediate format and
no fused multiply-add). -/

/-- A binary32 value: a finite number of sign `neg` and magnitude `mag` (zero has
both signs), an infinity, or a NaN. -/
inductive F32 where
  | fin (neg : Bool) (mag : ℚ)
  | inf (neg : Bool)
  | nan
  deriving DecidableEq, Repr

namespace F32

/-- The number a sign and a magnitude stand for. -/
def val (neg : Bool) (mag : ℚ) : ℚ := if neg then -mag else mag

/-- Unary minus. -/
def neg : F32 → F32
  | fin a x => fin (!a) x
  | inf a => inf (!a)
  | nan => nan

/-- The comparison `<=` of C: false when an operand is a NaN. -/
def le : F32 → F32 → Bool
  | fin a x, fin b y => decide (val a x ≤ val b y)
  | fin _ _, inf b => !b
  | inf a, fin _ _ => a
  | inf a, inf b => a || !b
  | _, _ => false

end F32

/-- Values of `enum ads1115_mux_t`: the three single-ended inputs the sensor
catalog names, and any other value of the enumeration by its code. -/
inductive ads1115_mux_t where
  | ADS1115_MUX_SINGLE_0
  | ADS1115_MUX_SINGLE_1
  | ADS1115_MUX_SINGLE_2
  | other (code : Nat)
  deriving DecidableEq, Repr

/-- Gain settings: the one the driver programs, and any other by its code. -/
inductive ads1115_pga_t where
  | ADS1115_PGA_4_096
  | other (code : Nat)
  deriving DecidableEq, Repr

/-- Sample-rate settings: the one the driver programs, and any other by its code. -/
inductive ads1115_rate_t where
  | ADS1115_RATE_128_SPS
  | other (code : Nat)
  deriving DecidableEq, Repr

/-- The library handle `struct ads1115_adc`: the device address and the pending
configuration (multiplexer, gain, sample rate). A field is `none` until the
library call that sets it has run. -/
structure ads1115_adc where
  i2c_addr : Option Nat
  mux : Option ads1115_mux_t
  pga : Option ads1115_pga_t
  rate : Option ads1115_rate_t
  deriving DecidableEq, Repr

/-- Return codes of the driver (`adc_status_t`) that occur in `adc_manager.c`. -/
inductive adc_status_t where
  | ADC_STATUS_OK
  | ADC_STATUS_INIT_FAILED
  | ADC_STATUS_NOT_INITIALIZED
  | ADC_STATUS_INVALID_PARAM
  deriving DecidableEq, Repr

/-- Return codes of the transmission collaborator: `HTTP_OK` or a failure code. -/
inductive http_status_t where
  | HTTP_OK
  | failure (code : Nat)
  deriving DecidableEq, Repr

/-- A call made to the hardware SDK, to the ADS1115 library, to the scheduler or
to an external collaborator, with the arguments that are not fixed constants. -/
inductive HwOp where
  | i2c_init (baudrate : Nat)
  | gpio_set_function (pin : Nat)
  | gpio_pull_up (pin : Nat)
  | i2c_read_timeout_us (addr : Nat) (len : Nat) (timeout_us : Nat)
  | ads1115_init (addr : Nat)
  | ads1115_set_pga (pga : ads1115_pga_t)
  | ads1115_set_data_rate (rate : ads1115_rate_t)
  | ads1115_set_input_mux (channel : ads1115_mux_t)
  | ads1115_write_config
  | ads1115_read_adc
  | watchdog_update
  | ethernet_init
  | http_send_sensor_data (temperature conductivity flow : ℚ)
  | vTaskDelay (ms : Nat)
  | vTaskDelete
  deriving DecidableEq, Repr

/-- A line written with `printf`, named after its content. -/
inductive LogLine where
  /-- Text `[ERRO FATAL] O dispositivo ADC (ADS1115) não foi encontrado ...` -/
  | adc_nao_encontrado
  /-- Text `[OK] Modulo ADC (ADS1115) inicializado.` -/
  | adc_inicializado
  /-- Text `[INFO] Inicializando sensores...` -/
  | inicializando_sensores
  /-- Text `[ERRO FATAL] Falha ao inicializar o módulo ADC. ...` -/
  | falha_modulo_adc
  /-- Text `[OK] Sensores inicializados com sucesso.` -/
  | sensores_inicializados
  /-- Text `[ERRO] Ponteiro para leitura dos sensores é nulo.` -/
  | ponteiro_nulo
  /-- Text `[ERRO EM EXECUÇÃO] Perda de comunicação com o ADC.` -/
  | perda_comunicacao
  /-- Text `[DADOS] Temp: ... | Cond: ... | Flow: ...` -/
  | dados (temperature temp_v conductivity cond_v flow flow_v : ℚ)
  /-- Text `[ERRO] Falha na inicializacao dos sensores. Tarefa Interrompida.` -/
  | falha_sensores
  /-- Text `[ERRO] Falha na inicialização do Ethernet. Tarefa Interrompida.` -/
  | falha_ethernet
  /-- Text `[INFO] Iniciando ciclos de envio a cada %d segundos.` -/
  | iniciando_ciclos (seconds : Nat)
  /-- Text `[ERRO] Falha na leitura dos sensores. Pulando este ciclo.` -/
  | falha_leitura
  /-- Text `[ERRO] Falha no ciclo de envio (status: %d).` -/
  | falha_envio (status : http_status_t)
  deriving DecidableEq, Repr

/-- The state the code can observe or change: the two statics of
`adc_manager.c`, the calls made so far (oldest first) and the lines logged so
far (oldest first). -/
structure World where
  is_initialized : Bool
  adc : ads1115_adc
  hw : List HwOp
  log : List LogLine
  deriving DecidableEq, Repr

/-- What the surroundings answer. Each answer is a function of the calls made
before it. `indeterminate` is the content of a `float` that is declared without
an initialiser. -/
structure Env where
  i2c_read_timeout_us : List HwOp → Int
  ads1115_read_adc : List HwOp → Nat
  ads1115_raw_to_volts : Nat → ads1115_adc → ℚ
  ethernet_init : List HwOp → Int
  http_send_sensor_data : List HwOp → http_status_t
  indeterminate : ℚ

/-- Record one call. -/
def World.emit (w : World) (op : HwOp) : World :=
  { w with hw := w.hw ++ [op] }

/-- Record one `printf`. -/
def World.printf (w : World) (l : LogLine) : World :=
  { w with log := w.log ++ [l] }

/-! ## ADC driver (`adc_manager.c`) -/

def I2C_FREQ : Nat := 400000
def ADS1115_I2C_ADDR : Nat := 0x48
def SDA_PIN : Nat := 0
def SCL_PIN : Nat := 1

/-- Library call `ads1115_init`: binds the handle to the device address. -/
def ads1115_init (addr : Nat) (w : World) : World :=
  { w.emit (.ads1115_init addr) with adc := { w.adc with i2c_addr := some addr } }

/-- Library call `ads1115_set_pga`. -/
def ads1115_set_pga (pga : ads1115_pga_t) (w : World) : World :=
  { w.emit (.ads1115_set_pga pga) with adc := { w.adc with pga := some pga } }

/-- Library call `ads1115_set_data_rate`. -/
def ads1115_set_data_rate (rate : ads1115_rate_t) (w : World) : World :=
  { w.emit (.ads1115_set_data_rate rate) with adc := { w.adc with rate := some rate } }

/-- Library call `ads1115_set_input_mux`. -/
def ads1115_set_input_mux (channel : ads1115_mux_t) (w : World) : World :=
  { w.emit (.ads1115_set_input_mux channel) with adc := { w.adc with mux := some channel } }

/-- Library call `ads1115_write_config`: sends the pending configuration. -/
def ads1115_write_config (w : World) : World :=
  w.emit .ads1115_write_config

/-- Library call `ads1115_read_adc`: the raw conversion result, a `uint16_t`. -/
def ads1115_read_adc (env : Env) (w : World) : Nat × World :=
  (env.ads1115_read_adc w.hw % 65536, w.emit .ads1115_read_adc)

/-- The function `adc_module_is_connected` (lines 40-48): one bounded one-byte
read from the device address; connected exactly when one byte was read. -/
def adc_module_is_connected (cfg : Config) (env : Env) (w : World) : Bool × World :=
  let result := env.i2c_read_timeout_us w.hw
  let w := w.emit (.i2c_read_timeout_us ADS1115_I2C_ADDR 1
    (cfg.ADC_CONNECTION_CHECK_TIMEOUT_MS * 1000))
  (decide (result = 1), w)

/-- The function `adc_module_init` (lines 53-84). -/
def adc_module_init (cfg : Config) (env : Env) (w : World) : adc_status_t × World :=
  if w.is_initialized then
    (.ADC_STATUS_OK, w)
  else
    let w := w.emit (.i2c_init I2C_FREQ)
    let w := w.emit (.gpio_set_function SDA_PIN)
    let w := w.emit (.gpio_set_function SCL_PIN)
    let w := w.emit (.gpio_pull_up SDA_PIN)
    let w := w.emit (.gpio_pull_up SCL_PIN)
    match adc_module_is_connected cfg env w with
    | (connected, w) =>
      if !connected then
        let w := w.printf .adc_nao_encontrado
        let w := { w with is_initialized := false }
        (.ADC_STATUS_INIT_FAILED, w)
      else
        let w := ads1115_init ADS1115_I2C_ADDR w
        let w := ads1115_set_pga .ADS1115_PGA_4_096 w
        let w := ads1115_set_data_rate .ADS1115_RATE_128_SPS w
        let w := ads1115_write_config w
        let w := { w with is_initialized := true }
        let w := w.printf .adc_inicializado
        (.ADC_STATUS_OK, w)

/-- The function `adc_module_read_voltage` (lines 89-111). The result carries the
content of the output destination after the call. -/
def adc_module_read_voltage (env : Env) (channel : ads1115_mux_t)
    (voltage_out : Option ℚ) (w : World) : adc_status_t × Option ℚ × World :=
  match voltage_out with
  | none => (.ADC_STATUS_INVALID_PARAM, none, w)
  | some old =>
    if !w.is_initialized then
      (.ADC_STATUS_NOT_INITIALIZED, some old, w)
    else
      let w := ads1115_set_input_mux channel w
      let w := ads1115_write_config w
      match ads1115_read_adc env w with
      | (adc_value, w) =>
        (.ADC_STATUS_OK, some (env.ads1115_raw_to_volts adc_value w.adc), w)

/-! ## Sensor manager (`sensor_manager.c`) -/

/-- The record `analog_sensor_t` of `analog_sensor.h`, with the fields the sensor
catalog initialises. -/
structure analog_sensor_t where
  adc_channel : ads1115_mux_t
  param1 : ℚ
  param2 : ℚ
  param3 : ℚ
  convert : ℚ → ℚ → ℚ → ℚ → ℚ

/-- The record `sensors_reading_t`. -/
structure sensors_reading_t where
  temperature : ℚ
  conductivity : ℚ
  flow : ℚ
  deriving DecidableEq, Repr

/-- The catalog entry `temperature_sensor` (lines 25-31). -/
def temperature_sensor (cfg : Config) : analog_sensor_t where
  adc_channel := .ADS1115_MUX_SINGLE_0
  param1 := cfg.SENSOR_TEMPERATURE_MAX_VOLTAGE
  param2 := cfg.SENSOR_TEMPERATURE_MAX_VALUE
  param3 := cfg.SENSOR_TEMPERATURE_MIN_VALUE
  convert := convert_linear_interpolation cfg

/-- The catalog entry `conductivity_sensor` (lines 33-39). -/
def conductivity_sensor (cfg : Config) : analog_sensor_t where
  adc_channel := .ADS1115_MUX_SINGLE_1
  param1 := cfg.SENSOR_CONDUCTIVITY_MAX_VOLTAGE
  param2 := cfg.SENSOR_CONDUCTIVITY_MAX_VALUE
  param3 := cfg.SENSOR_CONDUCTIVITY_MIN_VALUE
  convert := convert_linear_interpolation cfg

/-- The catalog entry `flow_sensor` (lines 41-47). -/
def flow_sensor (cfg : Config) : analog_sensor_t where
  adc_channel := .ADS1115_MUX_SINGLE_2
  param1 := cfg.SENSOR_FLOW_MAX_VOLTAGE
  param2 := cfg.SENSOR_FLOW_MAX_VALUE
  param3 := cfg.SENSOR_FLOW_MIN_VALUE
  convert := convert_linear_interpolation cfg

/-- Modelled from the spec: `analog_sensor_read` of `modules/analog_sensor`, whose
body is not among the sources. Section 4.3: "issue a channel read through the ADC
Driver, pass the resulting voltage through that sensor's calibration function,
store the result in the corresponding field". The arguments are the contents of
the two destinations before the call; the result is their contents after it.
The voltage destination is the one handed to the driver, so when the driver
refuses the read it still holds what it held before. -/
def analog_sensor_read (env : Env) (sensor : analog_sensor_t)
    (voltage_out : ℚ) (_value_out : ℚ) (w : World) : ℚ × ℚ × World :=
  match adc_module_read_voltage env sensor.adc_channel (some voltage_out) w with
  | (_, out, w) =>
    let voltage := out.getD voltage_out
    (voltage, sensor.convert voltage sensor.param1 sensor.param2 sensor.param3, w)

/-- The function `sensors_init` (lines 49-59). -/
def sensors_init (cfg : Config) (env : Env) (w : World) : Int × World :=
  let w := w.printf .inicializando_sensores
  match adc_module_init cfg env w with
  | (status, w) =>
    if status ≠ .ADC_STATUS_OK then
      let w := w.printf .falha_modulo_adc
      (1, w)
    else
      let w := w.printf .sensores_inicializados
      (0, w)

/-- The function `sensors_read_all` (lines 61-89). The result carries the content
of the output record after the call. -/
def sensors_read_all (cfg : Config) (env : Env)
    (reading : Option sensors_reading_t) (w : World) :
    Int × Option sensors_reading_t × World :=
  match reading with
  | none =>
    let w := w.printf .ponteiro_nulo
    (1, none, w)
  | some reading =>
    match adc_module_is_connected cfg env w with
    | (connected, w) =>
      if !connected then
        let w := w.printf .perda_comunicacao
        let reading := { reading with temperature := cfg.SENSOR_READ_ERROR }
        let reading := { reading with conductivity := cfg.SENSOR_READ_ERROR }
        let reading := { reading with flow := cfg.SENSOR_READ_ERROR }
        (1, some reading, w)
      else
        let temp_v := env.indeterminate
        let cond_v := env.indeterminate
        let flow_v := env.indeterminate
        match analog_sensor_read env (temperature_sensor cfg) temp_v reading.temperature w with
        | (temp_v, temperature, w) =>
        let reading := { reading with temperature := temperature }
        match analog_sensor_read env (conductivity_sensor cfg) cond_v reading.conductivity w with
        | (cond_v, conductivity, w) =>
        let reading := { reading with conductivity := conductivity }
        match analog_sensor_read env (flow_sensor cfg) flow_v reading.flow w with
        | (flow_v, flow, w) =>
        let reading := { reading with flow := flow }
        let w := w.printf (.dados reading.temperature temp_v
          reading.conductivity cond_v reading.flow flow_v)
        (0, some reading, w)

/-! ## Acquisition-and-dispatch loop (`main.c`) -/

/-- Where `main_task` stands: halted by `vTaskDelete(NULL)`, which deletes the
calling task and does not return, or running the cycle loop. -/
inductive TaskState where
  | Halted
  | Running
  deriving DecidableEq, Repr

/-- The external `ethernet_init`, called with the compile-time network identity. -/
def ethernet_init (env : Env) (w : World) : Int × World :=
  (env.ethernet_init w.hw, w.emit .ethernet_init)

/-- The external `http_send_sensor_data`. -/
def http_send_sensor_data (env : Env) (temperature conductivity flow : ℚ)
    (w : World) : http_status_t × World :=
  (env.http_send_sensor_data w.hw,
    w.emit (.http_send_sensor_data temperature conductivity flow))

/-- One pass through the body of `while (1)` (lines 45-66), on the local
`sensor_data` and the world. -/
def cycle (cfg : Config) (env : Env) (st : sensors_reading_t × World) :
    sensors_reading_t × World :=
  let sensor_data := st.1
  let w := st.2.emit .watchdog_update
  match sensors_read_all cfg env (some sensor_data) w with
  | (rc, out, w) =>
    let sensor_data := out.getD sensor_data
    let w :=
      if rc ≠ 0 then
        w.printf .falha_leitura
      else
        match http_send_sensor_data env sensor_data.temperature
            sensor_data.conductivity sensor_data.flow w with
        | (status, w) =>
          if status ≠ .HTTP_OK then w.printf (.falha_envio status) else w
    let w := w.emit (.vTaskDelay cfg.CYCLE_INTERVAL_MS)
    (sensor_data, w)

/-- The first `n` passes of the loop `while (1)`, which has no exit. -/
def main_loop (cfg : Config) (env : Env) :
    Nat → sensors_reading_t × World → sensors_reading_t × World
  | 0, st => st
  | n + 1, st => main_loop cfg env n (cycle cfg env st)

/-- The function `main_task` (lines 18-67), observed until it halts or has
completed `cycles` passes of its loop. -/
def main_task (cfg : Config) (env : Env) (cycles : Nat) (w : World) :
    TaskState × World :=
  match sensors_init cfg env w with
  | (rc, w) =>
    if rc ≠ 0 then
      let w := w.printf .falha_sensores
      (.Halted, w.emit .vTaskDelete)
    else
      match ethernet_init env w with
      | (rc, w) =>
        if rc ≠ 0 then
          let w := w.printf .falha_ethernet
          (.Halted, w.emit .vTaskDelete)
        else
          let w := w.printf (.iniciando_ciclos (cfg.CYCLE_INTERVAL_MS / 1000))
          let sensor_data : sensors_reading_t :=
            ⟨env.indeterminate, env.indeterminate, env.indeterminate⟩
          (.Running, (main_loop cfg env cycles (sensor_data, w)).2)

/-! ## Sample constants and surroundings used to evaluate the definitions -/

/-- A sample set of constants: sentinel `-999`, temperature `0..100` over `3.3` V,
conductivity `0..200` over `5` V, flow `0..50` over `2.5` V. -/
def sampleConfig : Config where
  SENSOR_READ_ERROR := -999
  SENSOR_TEMPERATURE_MAX_VOLTAGE := 33 / 10
  SENSOR_TEMPERATURE_MAX_VALUE := 100
  SENSOR_TEMPERATURE_MIN_VALUE := 0
  SENSOR_CONDUCTIVITY_MAX_VOLTAGE := 5
  SENSOR_CONDUCTIVITY_MAX_VALUE := 200
  SENSOR_CONDUCTIVITY_MIN_VALUE := 0
  SENSOR_FLOW_MAX_VOLTAGE := 5 / 2
  SENSOR_FLOW_MAX_VALUE := 50
  SENSOR_FLOW_MIN_VALUE := 0
  ADC_CONNECTION_CHECK_TIMEOUT_MS := 100
  CYCLE_INTERVAL_MS := 10000

/-- The world at power-on: nothing initialised, nothing called, nothing logged. -/
def bootWorld : World where
  is_initialized := false
  adc := ⟨none, none, none, none⟩
  hw := []
  log := []

/-- The channel selected by the most recent `ads1115_set_input_mux` of a history. -/
def selectedChannel (h : List HwOp) : Option ads1115_mux_t :=
  h.reverse.findSome? fun op =>
    match op with
    | .ads1115_set_input_mux c => some c
    | _ => none

/-- Volts per count at the `4.096` V gain, two's complement: `1 / 8000` V. -/
def sampleRawToVolts (raw : Nat) (_adc : ads1115_adc) : ℚ :=
  if raw < 32768 then (raw : ℚ) / 8000 else ((raw : ℚ) - 65536) / 8000

/-- Sample surroundings in which the converter answers every probe and the
inputs carry `1` V, `2` V and `0.5` V plus `0.1` V per cycle begun. -/
def sampleEnv : Env where
  i2c_read_timeout_us := fun _ => 1
  ads1115_read_adc := fun h =>
    (match selectedChannel h with
      | some .ADS1115_MUX_SINGLE_0 => 8000
      | some .ADS1115_MUX_SINGLE_1 => 16000
      | _ => 4000) + 800 * h.count .watchdog_update
  ads1115_raw_to_volts := sampleRawToVolts
  ethernet_init := fun _ => 0
  http_send_sensor_data := fun _ => .HTTP_OK
  indeterminate := 0

/-- Surroundings as `sampleEnv`, but the converter never answers the probe. -/
def absentEnv : Env :=
  { sampleEnv with i2c_read_timeout_us := fun _ => -1 }

/-- Surroundings as `sampleEnv`, but the conductivity input reads `-1` V. -/
def faultyEnv : Env :=
  { sampleEnv with
    ads1115_read_adc := fun h =>
      match selectedChannel h with
      | some .ADS1115_MUX_SINGLE_0 => 8000
      | some .ADS1115_MUX_SINGLE_1 => 65536 - 8000
      | _ => 4000 }

/-- Surroundings as `sampleEnv`, but the converter does not answer the probe
made during the second cycle. -/
def scenarioBEnv : Env :=
  { sampleEnv with
    i2c_read_timeout_us := fun h => if h.count .watchdog_update = 2 then -1 else 1 }

/-- The world after a successful start-up on `sampleEnv`. -/
def readyWorld : World :=
  (adc_module_init sampleConfig sampleEnv bootWorld).2

/-! ## Calibration model: properties -/

/-- C1, counterexample. With the sample constants (sentinel `-999`), the call
with `v = -1`, `max_v = 0`, `max_value = 100`, `min_value = 7` does not return
`7`. And whatever the constants are, the degenerate-calibration result is not
`min_value` for every voltage: at `v = -1`, `max_v = 0`, `max_value = 0`,
`min_value = SENSOR_READ_ERROR + 1` the negative-voltage test comes first and
the result is `SENSOR_READ_ERROR`. -/
theorem C1_negative_voltage_counterexample :
    convert_linear_interpolation sampleConfig (-1) 0 100 7 ≠ 7 ∧
    ¬ ∃ cfg : Config, ∀ v max_value min_value : ℚ,
      convert_linear_interpolation cfg v 0 max_value min_value = min_value := by
  refine ⟨by norm_num [convert_linear_interpolation, sampleConfig], ?_⟩
  rintro ⟨cfg, h⟩
  have h1 := h (-1) 0 (cfg.SENSOR_READ_ERROR + 1)
  simp [convert_linear_interpolation] at h1

/-- C1, amended. For every voltage `v ≥ 0` and every `max_value`, `min_value`,
`convert_linear_interpolation(v, 0, max_value, min_value)` returns `min_value`. -/
theorem C1_zero_full_scale_returns_min (cfg : Config) (v max_value min_value : ℚ)
    (hv : 0 ≤ v) :
    convert_linear_interpolation cfg v 0 max_value min_value = min_value := by
  simp [convert_linear_interpolation, not_lt.mpr hv]

/-- C1 amended, at `v = 2`, `max_value = 100`, `min_value = 7`. -/
theorem C1_zero_full_scale_returns_min_witness :
    (0 : ℚ) ≤ 2 ∧ convert_linear_interpolation sampleConfig 2 0 100 7 = 7 :=
  ⟨by norm_num, C1_zero_full_scale_returns_min sampleConfig 2 100 7 (by norm_num)⟩

/-- In exact arithmetic, for every full-scale voltage `fv > 0`: the
conversion of `0` is `minVal`, the conversion of `fv` is `maxVal`, and on
`0 ≤ v1 ≤ v2` the results are ordered like `minVal` and `maxVal`. -/
theorem convert_exact_endpoints_and_monotone (cfg : Config) (fv maxVal minVal : ℚ) (hfv : 0 < fv) :
    convert_linear_interpolation cfg 0 fv maxVal minVal = minVal ∧
    convert_linear_interpolation cfg fv fv maxVal minVal = maxVal ∧
    ∀ v1 v2 : ℚ, 0 ≤ v1 → v1 ≤ v2 →
      (minVal ≤ maxVal →
        convert_linear_interpolation cfg v1 fv maxVal minVal ≤
          convert_linear_interpolation cfg v2 fv maxVal minVal) ∧
      (maxVal ≤ minVal →
        convert_linear_interpolation cfg v2 fv maxVal minVal ≤
          convert_linear_interpolation cfg v1 fv maxVal minVal) := by
  have hne : fv ≠ 0 := ne_of_gt hfv
  refine ⟨?_, ?_, ?_⟩
  · simp [convert_linear_interpolation, hne]
  · have h0 : ¬ fv < 0 := not_lt.mpr hfv.le
    simp only [convert_linear_interpolation, h0, hne, if_false]
    field_simp
  · intro v1 v2 h1 h12
    have h2 : 0 ≤ v2 := le_trans h1 h12
    simp only [convert_linear_interpolation, not_lt.mpr h1, not_lt.mpr h2, hne, if_false]
    constructor
    · intro hle
      have hs : 0 ≤ (maxVal - minVal) / fv := div_nonneg (sub_nonneg.mpr hle) hfv.le
      have := mul_le_mul_of_nonneg_right h12 hs
      linarith
    · intro hle
      have hs : (maxVal - minVal) / fv ≤ 0 :=
        div_nonpos_of_nonpos_of_nonneg (sub_nonpos.mpr hle) hfv.le
      have := mul_le_mul_of_nonpos_right h12 hs
      linarith

/-! ### Rounding is monotone -/

namespace F32

end F32

/-! ### The conversion in binary32 -/

/-- C3. For every voltage `v < 0` and every `max_v`, `max_value`, `min_value`
(`max_v = 0` included), the conversion returns `SENSOR_READ_ERROR`. -/
theorem C3_negative_voltage_is_read_error (cfg : Config) (v max_v max_value min_value : ℚ)
    (hv : v < 0) :
    convert_linear_interpolation cfg v max_v max_value min_value =
      cfg.SENSOR_READ_ERROR := by
  simp [convert_linear_interpolation, hv]

/-- C3 at `v = -1`, `max_v = 0`, `max_value = 100`, `min_value = 7`. -/
theorem C3_negative_voltage_is_read_error_witness :
    (-1 : ℚ) < 0 ∧
      convert_linear_interpolation sampleConfig (-1) 0 100 7 =
        sampleConfig.SENSOR_READ_ERROR :=
  ⟨by norm_num, C3_negative_voltage_is_read_error sampleConfig (-1) 0 100 7 (by norm_num)⟩

/-! ## ADC driver: properties -/

/-- The calls `adc_module_init` makes before it probes the device. -/
def transportSetup : List HwOp :=
  [.i2c_init I2C_FREQ, .gpio_set_function SDA_PIN, .gpio_set_function SCL_PIN,
    .gpio_pull_up SDA_PIN, .gpio_pull_up SCL_PIN]

/-- The probe call of `adc_module_is_connected`. -/
def probeOp (cfg : Config) : HwOp :=
  .i2c_read_timeout_us ADS1115_I2C_ADDR 1 (cfg.ADC_CONNECTION_CHECK_TIMEOUT_MS * 1000)

/-- C6, counterexample. At power-on (`is_initialized` false) a read into an
absent destination returns `ADC_STATUS_INVALID_PARAM`, not
`ADC_STATUS_NOT_INITIALIZED`: the null test comes first. -/
theorem C6_absent_destination_counterexample :
    bootWorld.is_initialized = false ∧
    (adc_module_read_voltage sampleEnv .ADS1115_MUX_SINGLE_0 none bootWorld).1 =
      .ADC_STATUS_INVALID_PARAM ∧
    (adc_module_read_voltage sampleEnv .ADS1115_MUX_SINGLE_0 none bootWorld).1 ≠
      .ADC_STATUS_NOT_INITIALIZED := by
  refine ⟨rfl, rfl, ?_⟩
  simp [adc_module_read_voltage]

/-- C6, amended. For every channel and every output destination, if
`is_initialized` is false then `adc_module_read_voltage` makes no call to the
hardware and leaves the destination and the driver state unchanged; it returns
`ADC_STATUS_NOT_INITIALIZED` when the destination is present and
`ADC_STATUS_INVALID_PARAM` when it is absent. -/
theorem C6_read_before_init (env : Env) (channel : ads1115_mux_t)
    (voltage_out : Option ℚ) (w : World) (h : w.is_initialized = false) :
    (adc_module_read_voltage env channel voltage_out w).2.2 = w ∧
    (adc_module_read_voltage env channel voltage_out w).2.1 = voltage_out ∧
    (∀ x, voltage_out = some x →
      (adc_module_read_voltage env channel voltage_out w).1 =
        .ADC_STATUS_NOT_INITIALIZED) ∧
    (voltage_out = none →
      (adc_module_read_voltage env channel voltage_out w).1 =
        .ADC_STATUS_INVALID_PARAM) := by
  cases voltage_out with
  | none => simp [adc_module_read_voltage]
  | some x => simp [adc_module_read_voltage, h]

/-- C6 amended, at power-on with a destination holding `42`. -/
theorem C6_read_before_init_witness :
    bootWorld.is_initialized = false ∧
    adc_module_read_voltage sampleEnv .ADS1115_MUX_SINGLE_1 (some 42) bootWorld =
      (.ADC_STATUS_NOT_INITIALIZED, some 42, bootWorld) := by
  have h := C6_read_before_init sampleEnv .ADS1115_MUX_SINGLE_1 (some 42) bootWorld rfl
  exact ⟨rfl, Prod.ext (h.2.2.1 42 rfl) (Prod.ext h.2.1 h.1)⟩

/-- C7. In every state where `is_initialized` is true, `adc_module_init` returns
`ADC_STATUS_OK`, makes no call at all (no bus, pin or converter operation, no
probe) and leaves the driver state unchanged, whatever the device would answer. -/
theorem C7_init_idempotent (cfg : Config) (env : Env) (w : World)
    (h : w.is_initialized = true) :
    adc_module_init cfg env w = (.ADC_STATUS_OK, w) := by
  simp [adc_module_init, h]

/-- C7 after a successful start-up, with the device gone since. -/
theorem C7_init_idempotent_witness :
    readyWorld.is_initialized = true ∧
    adc_module_init sampleConfig absentEnv readyWorld = (.ADC_STATUS_OK, readyWorld) :=
  ⟨by decide, C7_init_idempotent sampleConfig absentEnv readyWorld (by decide)⟩

/-- C8. If `adc_module_init` is called while `is_initialized` is false and the
probe reports the device absent, it returns `ADC_STATUS_INIT_FAILED`, the flag is
still false, the only calls made are the transport set-up and the probe (gain
and sample rate are not programmed) and the handle is unchanged; and the flag is
true after a call only if that call's probe succeeded. -/
theorem C8_init_requires_device (cfg : Config) (env : Env) (w : World)
    (h : w.is_initialized = false) :
    (env.i2c_read_timeout_us (w.hw ++ transportSetup) ≠ 1 →
      (adc_module_init cfg env w).1 = .ADC_STATUS_INIT_FAILED ∧
      (adc_module_init cfg env w).2.is_initialized = false ∧
      (adc_module_init cfg env w).2.adc = w.adc ∧
      (adc_module_init cfg env w).2.hw = w.hw ++ transportSetup ++ [probeOp cfg]) ∧
    ((adc_module_init cfg env w).2.is_initialized = true →
      env.i2c_read_timeout_us (w.hw ++ transportSetup) = 1) := by
  by_cases hp : env.i2c_read_timeout_us (w.hw ++ transportSetup) = 1
  · simp [hp]
  · simp [adc_module_init, adc_module_is_connected, World.emit, World.printf, h,
      transportSetup, probeOp] at hp ⊢
    simp [hp]

/-- C8 at power-on with the device absent. -/
theorem C8_init_requires_device_witness :
    bootWorld.is_initialized = false ∧
    absentEnv.i2c_read_timeout_us (bootWorld.hw ++ transportSetup) ≠ 1 ∧
    (adc_module_init sampleConfig absentEnv bootWorld).1 = .ADC_STATUS_INIT_FAILED ∧
    (adc_module_init sampleConfig absentEnv bootWorld).2.is_initialized = false ∧
    (adc_module_init sampleConfig absentEnv bootWorld).2.hw =
      bootWorld.hw ++ transportSetup ++ [probeOp sampleConfig] :=
  have hp : absentEnv.i2c_read_timeout_us (bootWorld.hw ++ transportSetup) ≠ 1 := by decide
  have h := (C8_init_requires_device sampleConfig absentEnv bootWorld rfl).1 hp
  ⟨rfl, hp, h.1, h.2.1, h.2.2.2⟩

/-! ## Sensor manager: properties -/

/-- With the probe unanswered, the probe is the one call `sensors_read_all` makes. -/
theorem read_all_disconnected_calls (cfg : Config) (env : Env) (reading : sensors_reading_t) (w : World)
    (h : (adc_module_is_connected cfg env w).1 = false) :
    (sensors_read_all cfg env (some reading) w).2.2.hw = w.hw ++ [probeOp cfg] := by
  simp only [adc_module_is_connected] at h
  simp [sensors_read_all, adc_module_is_connected, h, World.emit, World.printf, probeOp]

/-- C4. If `sensors_read_all` is called with a present record and the probe
reports false, it returns `1`, all three fields of the record are
`SENSOR_READ_ERROR` whatever they held, and the probe is the only call made: no
channel read is issued, whatever the converter would have answered. -/
theorem C4_read_all_disconnected (cfg : Config) (env : Env)
    (reading : sensors_reading_t) (w : World)
    (h : (adc_module_is_connected cfg env w).1 = false) :
    (sensors_read_all cfg env (some reading) w).1 = 1 ∧
    (sensors_read_all cfg env (some reading) w).1 ≠ 0 ∧
    (sensors_read_all cfg env (some reading) w).2.1 =
      some ⟨cfg.SENSOR_READ_ERROR, cfg.SENSOR_READ_ERROR, cfg.SENSOR_READ_ERROR⟩ ∧
    (sensors_read_all cfg env (some reading) w).2.2.hw = w.hw ++ [probeOp cfg] ∧
    (sensors_read_all cfg env (some reading) w).2.2.is_initialized = w.is_initialized ∧
    (sensors_read_all cfg env (some reading) w).2.2.adc = w.adc := by
  simp only [adc_module_is_connected] at h
  simp [sensors_read_all, adc_module_is_connected, h, World.emit, World.printf, probeOp]

/-- C4 after a successful start-up, with the device gone since and a record holding `20`, `30`, `40`. -/
theorem C4_read_all_disconnected_witness :
    (adc_module_is_connected sampleConfig absentEnv readyWorld).1 = false ∧
    (sensors_read_all sampleConfig absentEnv (some ⟨20, 30, 40⟩) readyWorld).1 = 1 ∧
    (sensors_read_all sampleConfig absentEnv (some ⟨20, 30, 40⟩) readyWorld).2.1 =
      some ⟨-999, -999, -999⟩ :=
  have h := C4_read_all_disconnected sampleConfig absentEnv ⟨20, 30, 40⟩ readyWorld
    (by decide)
  ⟨by decide, h.1, h.2.2.1⟩

/-- The calls one channel read makes, in order. -/
def channelReadOps (channel : ads1115_mux_t) : List HwOp :=
  [.ads1115_set_input_mux channel, .ads1115_write_config, .ads1115_read_adc]

/-- A channel read that returns `ADC_STATUS_OK` made exactly the three calls of
a conversion and left the initialisation flag as it was. -/
theorem read_voltage_ok_calls (env : Env) (channel : ads1115_mux_t) (x v : ℚ)
    (w w1 : World)
    (h : adc_module_read_voltage env channel (some x) w = (.ADC_STATUS_OK, some v, w1)) :
    w1.hw = w.hw ++ channelReadOps channel ∧ w1.is_initialized = w.is_initialized := by
  cases hi : w.is_initialized with
  | false => simp [adc_module_read_voltage, hi] at h
  | true =>
    simp only [adc_module_read_voltage, hi, ads1115_read_adc, ads1115_write_config,
      ads1115_set_input_mux, World.emit] at h
    simp only [Bool.not_true, Bool.false_eq_true, if_false, Prod.mk.injEq, true_and] at h
    rw [← h.2]
    simp [channelReadOps, hi]

/-- The probe of `adc_module_is_connected` is the one call it makes. -/
theorem is_connected_calls (cfg : Config) (env : Env) (w w1 : World) (b : Bool)
    (h : adc_module_is_connected cfg env w = (b, w1)) :
    w1.hw = w.hw ++ [probeOp cfg] ∧ w1.is_initialized = w.is_initialized ∧
      w1.adc = w.adc ∧ w1.log = w.log := by
  simp only [adc_module_is_connected, World.emit, Prod.mk.injEq] at h
  rw [← h.2]
  simp [probeOp]

/-- C5. If `sensors_read_all` is called with a present record, the probe reports
true, the three channel reads yield the voltages `vt`, `vc`, `vf` and exactly
one of them is negative, then the call returns `0`, every field is the
linear-interpolation conversion of its own voltage with its own calibration
parameters (the field of the negative voltage being `SENSOR_READ_ERROR`), and
after the probe the channels are read in the order temperature, conductivity,
flow. -/
theorem C5_read_all_partial_failure (cfg : Config) (env : Env)
    (reading : sensors_reading_t) (w w1 w2 w3 w4 : World) (vt vc vf : ℚ)
    (hconn : adc_module_is_connected cfg env w = (true, w1))
    (ht : adc_module_read_voltage env .ADS1115_MUX_SINGLE_0 (some env.indeterminate) w1 =
      (.ADC_STATUS_OK, some vt, w2))
    (hc : adc_module_read_voltage env .ADS1115_MUX_SINGLE_1 (some env.indeterminate) w2 =
      (.ADC_STATUS_OK, some vc, w3))
    (hf : adc_module_read_voltage env .ADS1115_MUX_SINGLE_2 (some env.indeterminate) w3 =
      (.ADC_STATUS_OK, some vf, w4))
    (hone : (vt < 0 ∧ 0 ≤ vc ∧ 0 ≤ vf) ∨ (0 ≤ vt ∧ vc < 0 ∧ 0 ≤ vf) ∨
      (0 ≤ vt ∧ 0 ≤ vc ∧ vf < 0)) :
    (sensors_read_all cfg env (some reading) w).1 = 0 ∧
    (sensors_read_all cfg env (some reading) w).2.1 =
      some ⟨convert_linear_interpolation cfg vt cfg.SENSOR_TEMPERATURE_MAX_VOLTAGE
              cfg.SENSOR_TEMPERATURE_MAX_VALUE cfg.SENSOR_TEMPERATURE_MIN_VALUE,
            convert_linear_interpolation cfg vc cfg.SENSOR_CONDUCTIVITY_MAX_VOLTAGE
              cfg.SENSOR_CONDUCTIVITY_MAX_VALUE cfg.SENSOR_CONDUCTIVITY_MIN_VALUE,
            convert_linear_interpolation cfg vf cfg.SENSOR_FLOW_MAX_VOLTAGE
              cfg.SENSOR_FLOW_MAX_VALUE cfg.SENSOR_FLOW_MIN_VALUE⟩ ∧
    (∀ out, (sensors_read_all cfg env (some reading) w).2.1 = some out →
      (vt < 0 ∧ out.temperature = cfg.SENSOR_READ_ERROR) ∨
      (vc < 0 ∧ out.conductivity = cfg.SENSOR_READ_ERROR) ∨
      (vf < 0 ∧ out.flow = cfg.SENSOR_READ_ERROR)) ∧
    (sensors_read_all cfg env (some reading) w).2.2.hw =
      w.hw ++ [probeOp cfg] ++ channelReadOps .ADS1115_MUX_SINGLE_0 ++
        channelReadOps .ADS1115_MUX_SINGLE_1 ++ channelReadOps .ADS1115_MUX_SINGLE_2 := by
  have e1 := (is_connected_calls cfg env w w1 true hconn).1
  have e2 := (read_voltage_ok_calls env _ _ _ _ _ ht).1
  have e3 := (read_voltage_ok_calls env _ _ _ _ _ hc).1
  have e4 := (read_voltage_ok_calls env _ _ _ _ _ hf).1
  have hr : sensors_read_all cfg env (some reading) w =
      (0, some ⟨convert_linear_interpolation cfg vt cfg.SENSOR_TEMPERATURE_MAX_VOLTAGE
              cfg.SENSOR_TEMPERATURE_MAX_VALUE cfg.SENSOR_TEMPERATURE_MIN_VALUE,
            convert_linear_interpolation cfg vc cfg.SENSOR_CONDUCTIVITY_MAX_VOLTAGE
              cfg.SENSOR_CONDUCTIVITY_MAX_VALUE cfg.SENSOR_CONDUCTIVITY_MIN_VALUE,
            convert_linear_interpolation cfg vf cfg.SENSOR_FLOW_MAX_VOLTAGE
              cfg.SENSOR_FLOW_MAX_VALUE cfg.SENSOR_FLOW_MIN_VALUE⟩,
        w4.printf (.dados
          (convert_linear_interpolation cfg vt cfg.SENSOR_TEMPERATURE_MAX_VOLTAGE
              cfg.SENSOR_TEMPERATURE_MAX_VALUE cfg.SENSOR_TEMPERATURE_MIN_VALUE) vt
          (convert_linear_interpolation cfg vc cfg.SENSOR_CONDUCTIVITY_MAX_VOLTAGE
              cfg.SENSOR_CONDUCTIVITY_MAX_VALUE cfg.SENSOR_CONDUCTIVITY_MIN_VALUE) vc
          (convert_linear_interpolation cfg vf cfg.SENSOR_FLOW_MAX_VOLTAGE
              cfg.SENSOR_FLOW_MAX_VALUE cfg.SENSOR_FLOW_MIN_VALUE) vf)) := by
    simp [sensors_read_all, hconn, analog_sensor_read, temperature_sensor,
      conductivity_sensor, flow_sensor, ht, hc, hf]
  rw [hr]
  refine ⟨rfl, rfl, ?_, ?_⟩
  · intro out ho
    simp only [Option.some.injEq] at ho
    subst ho
    rcases hone with ⟨h, -, -⟩ | ⟨-, h, -⟩ | ⟨-, -, h⟩
    · exact Or.inl ⟨h, by simp [convert_linear_interpolation, h]⟩
    · exact Or.inr (Or.inl ⟨h, by simp [convert_linear_interpolation, h]⟩)
    · exact Or.inr (Or.inr ⟨h, by simp [convert_linear_interpolation, h]⟩)
  · simp [World.printf, e4, e3, e2, e1]

/-- C5 after a successful start-up, with inputs at `1` V, `-1` V and `0.5` V. -/
theorem C5_read_all_partial_failure_witness :
    (sensors_read_all sampleConfig faultyEnv (some ⟨20, 30, 40⟩) readyWorld).1 = 0 ∧
    (sensors_read_all sampleConfig faultyEnv (some ⟨20, 30, 40⟩) readyWorld).2.1 =
      some ⟨1000 / 33, -999, 10⟩ :=
  have h := C5_read_all_partial_failure sampleConfig faultyEnv ⟨20, 30, 40⟩ readyWorld
    (adc_module_is_connected sampleConfig faultyEnv readyWorld).2
    (adc_module_read_voltage faultyEnv .ADS1115_MUX_SINGLE_0 (some 0)
      (adc_module_is_connected sampleConfig faultyEnv readyWorld).2).2.2
    (adc_module_read_voltage faultyEnv .ADS1115_MUX_SINGLE_1 (some 0)
      (adc_module_read_voltage faultyEnv .ADS1115_MUX_SINGLE_0 (some 0)
        (adc_module_is_connected sampleConfig faultyEnv readyWorld).2).2.2).2.2
    (adc_module_read_voltage faultyEnv .ADS1115_MUX_SINGLE_2 (some 0)
      (adc_module_read_voltage faultyEnv .ADS1115_MUX_SINGLE_1 (some 0)
        (adc_module_read_voltage faultyEnv .ADS1115_MUX_SINGLE_0 (some 0)
          (adc_module_is_connected sampleConfig faultyEnv readyWorld).2).2.2).2.2).2.2
    1 (-1) (1 / 2)
    (Prod.ext (by decide) rfl)
    (Prod.ext (by decide) (Prod.ext (by
      norm_num [adc_module_read_voltage, adc_module_is_connected, readyWorld, adc_module_init,
        ads1115_read_adc, ads1115_write_config, ads1115_set_input_mux, ads1115_init,
        ads1115_set_pga, ads1115_set_data_rate, World.emit, World.printf, bootWorld,
        faultyEnv, sampleEnv, selectedChannel, sampleRawToVolts]) rfl))
    (Prod.ext (by decide) (Prod.ext (by
      norm_num [adc_module_read_voltage, adc_module_is_connected, readyWorld, adc_module_init,
        ads1115_read_adc, ads1115_write_config, ads1115_set_input_mux, ads1115_init,
        ads1115_set_pga, ads1115_set_data_rate, World.emit, World.printf, bootWorld,
        faultyEnv, sampleEnv, selectedChannel, sampleRawToVolts]) rfl))
    (Prod.ext (by decide) (Prod.ext (by
      norm_num [adc_module_read_voltage, adc_module_is_connected, readyWorld, adc_module_init,
        ads1115_read_adc, ads1115_write_config, ads1115_set_input_mux, ads1115_init,
        ads1115_set_pga, ads1115_set_data_rate, World.emit, World.printf, bootWorld,
        faultyEnv, sampleEnv, selectedChannel, sampleRawToVolts]) rfl))
    (Or.inr (Or.inl ⟨by norm_num, by norm_num, by norm_num⟩))
  ⟨h.1, h.2.1.trans (by norm_num [convert_linear_interpolation, sampleConfig])⟩

/-! ## Acquisition-and-dispatch loop: properties -/

/-- The result of `main_task` does not depend on the number of cycles observed
as far as halting is concerned. -/
theorem main_task_state (cfg : Config) (env : Env) (cycles : Nat) (w : World) :
    (main_task cfg env cycles w).1 =
      if (sensors_init cfg env w).1 ≠ 0 then .Halted
      else if (ethernet_init env (sensors_init cfg env w).2).1 ≠ 0 then .Halted
      else .Running := by
  simp only [main_task]
  split_ifs <;> rfl

/-- The calls that belong to a pass of the loop: the watchdog reset, the steps of
a channel read that select and sample an input, the dispatch and the wait. -/
def isCycleOp : HwOp → Bool
  | .watchdog_update => true
  | .ads1115_set_input_mux _ => true
  | .ads1115_read_adc => true
  | .http_send_sensor_data _ _ _ => true
  | .vTaskDelay _ => true
  | _ => false

/-- The function `sensors_init` fails exactly at a start-up whose probe is not
answered. -/
theorem sensors_init_fails_iff (cfg : Config) (env : Env) (w : World) :
    (sensors_init cfg env w).1 ≠ 0 ↔
      (w.is_initialized = false ∧
        env.i2c_read_timeout_us (w.hw ++ transportSetup) ≠ 1) := by
  cases hi : w.is_initialized with
  | true => simp [sensors_init, adc_module_init, World.printf, hi]
  | false =>
    by_cases hp : env.i2c_read_timeout_us
        (w.hw ++ [HwOp.i2c_init I2C_FREQ, HwOp.gpio_set_function SDA_PIN,
          HwOp.gpio_set_function SCL_PIN, HwOp.gpio_pull_up SDA_PIN,
          HwOp.gpio_pull_up SCL_PIN]) = 1 <;>
    simp [sensors_init, adc_module_init, adc_module_is_connected, World.emit,
      World.printf, hi, hp, transportSetup]

/-- The function `sensors_init` makes no call that belongs to a pass of the loop,
and does not call `ethernet_init`. -/
theorem sensors_init_calls (cfg : Config) (env : Env) (w : World) :
    ∃ ops, (sensors_init cfg env w).2.hw = w.hw ++ ops ∧
      ∀ op ∈ ops, isCycleOp op = false ∧ op ≠ .ethernet_init := by
  cases hi : w.is_initialized with
  | true =>
    exact ⟨[], by simp [sensors_init, adc_module_init, World.printf, hi], by simp⟩
  | false =>
    by_cases hp : env.i2c_read_timeout_us
        (w.hw ++ [HwOp.i2c_init I2C_FREQ, HwOp.gpio_set_function SDA_PIN,
          HwOp.gpio_set_function SCL_PIN, HwOp.gpio_pull_up SDA_PIN,
          HwOp.gpio_pull_up SCL_PIN]) = 1
    · refine ⟨transportSetup ++ [probeOp cfg, .ads1115_init ADS1115_I2C_ADDR,
        .ads1115_set_pga .ADS1115_PGA_4_096, .ads1115_set_data_rate .ADS1115_RATE_128_SPS,
        .ads1115_write_config], ?_, ?_⟩
      · simp [sensors_init, adc_module_init, adc_module_is_connected, World.emit,
          World.printf, hi, hp, transportSetup, probeOp, ads1115_init, ads1115_set_pga,
          ads1115_set_data_rate, ads1115_write_config]
      · simp [transportSetup, probeOp, isCycleOp]
    · refine ⟨transportSetup ++ [probeOp cfg], ?_, ?_⟩
      · simp [sensors_init, adc_module_init, adc_module_is_connected, World.emit,
          World.printf, hi, hp, transportSetup, probeOp]
      · simp [transportSetup, probeOp, isCycleOp]

/-- The calls that address the converter: the probe and the three steps of a
channel read. -/
def isAdcOp : HwOp → Bool
  | .i2c_read_timeout_us _ _ _ => true
  | .ads1115_set_input_mux _ => true
  | .ads1115_write_config => true
  | .ads1115_read_adc => true
  | _ => false

/-- The readings handed to the transmission collaborator, oldest first. -/
def dispatches (h : List HwOp) : List sensors_reading_t :=
  h.filterMap fun op =>
    match op with
    | .http_send_sensor_data t c f => some ⟨t, c, f⟩
    | _ => none

/-- Whatever the driver answers, `analog_sensor_read` only addresses the
converter. -/
theorem analog_sensor_read_calls (env : Env) (sensor : analog_sensor_t) (x y : ℚ)
    (w : World) :
    ∃ ops, (analog_sensor_read env sensor x y w).2.2.hw = w.hw ++ ops ∧
      ∀ op ∈ ops, isAdcOp op = true := by
  cases hi : w.is_initialized with
  | false =>
    exact ⟨[], by simp [analog_sensor_read, adc_module_read_voltage, hi], by simp⟩
  | true =>
    refine ⟨channelReadOps sensor.adc_channel, ?_, ?_⟩
    · simp [analog_sensor_read, adc_module_read_voltage, hi, ads1115_read_adc,
        ads1115_write_config, ads1115_set_input_mux, World.emit, channelReadOps]
    · simp [channelReadOps, isAdcOp]

/-- Whatever happens, `sensors_read_all` on a present record only addresses the
converter. -/
theorem sensors_read_all_calls (cfg : Config) (env : Env) (reading : sensors_reading_t)
    (w : World) :
    ∃ ops, (sensors_read_all cfg env (some reading) w).2.2.hw = w.hw ++ ops ∧
      ∀ op ∈ ops, isAdcOp op = true := by
  cases hc : (adc_module_is_connected cfg env w).1 with
  | false =>
    refine ⟨[probeOp cfg], (read_all_disconnected_calls cfg env reading w hc), ?_⟩
    simp [probeOp, isAdcOp]
  | true =>
    have e1 : (adc_module_is_connected cfg env w).2.hw = w.hw ++ [probeOp cfg] :=
      (is_connected_calls cfg env w _ _ rfl).1
    obtain ⟨o1, h1, a1⟩ := analog_sensor_read_calls env (temperature_sensor cfg)
      env.indeterminate reading.temperature (adc_module_is_connected cfg env w).2
    obtain ⟨o2, h2, a2⟩ := analog_sensor_read_calls env (conductivity_sensor cfg)
      env.indeterminate reading.conductivity
      (analog_sensor_read env (temperature_sensor cfg) env.indeterminate
        reading.temperature (adc_module_is_connected cfg env w).2).2.2
    obtain ⟨o3, h3, a3⟩ := analog_sensor_read_calls env (flow_sensor cfg)
      env.indeterminate reading.flow
      (analog_sensor_read env (conductivity_sensor cfg) env.indeterminate
        reading.conductivity
        (analog_sensor_read env (temperature_sensor cfg) env.indeterminate
          reading.temperature (adc_module_is_connected cfg env w).2).2.2).2.2
    refine ⟨[probeOp cfg] ++ o1 ++ o2 ++ o3, ?_, ?_⟩
    · simp only [sensors_read_all, hc, World.printf]
      simp only [Bool.not_true, Bool.false_eq_true, if_false]
      rw [h3, h2, h1, e1]
      simp
    · intro op hop
      simp only [List.mem_append, List.mem_singleton] at hop
      rcases hop with ((rfl | h) | h) | h
      · simp [probeOp, isAdcOp]
      · exact a1 op h
      · exact a2 op h
      · exact a3 op h

/-- Calls that address the converter hand nothing to the transmission
collaborator. -/
theorem dispatches_adc_ops (ops : List HwOp) (h : ∀ op ∈ ops, isAdcOp op = true) :
    dispatches ops = [] := by
  induction ops with
  | nil => rfl
  | cons op rest ih =>
    have hr : dispatches rest = [] := ih fun o ho => h o (List.mem_cons_of_mem _ ho)
    have ho : isAdcOp op = true := h op (List.mem_cons_self _ _)
    cases op <;> first
      | (simpa [dispatches] using hr)
      | (simp [isAdcOp] at ho)

theorem dispatches_append (a b : List HwOp) :
    dispatches (a ++ b) = dispatches a ++ dispatches b := by
  simp [dispatches]

/-- Running one more pass is running the passes so far and then one pass. -/
theorem main_loop_succ (cfg : Config) (env : Env) (n : Nat)
    (st : sensors_reading_t × World) :
    main_loop cfg env (n + 1) st = cycle cfg env (main_loop cfg env n st) := by
  induction n generalizing st with
  | zero => rfl
  | succ k ih =>
    show main_loop cfg env (k + 1) (cycle cfg env st) = _
    rw [ih]
    rfl

/-- The calls of one pass of the loop: the watchdog reset, the calls of
`sensors_read_all`, the dispatch when the read returned `0`, and the wait. -/
theorem cycle_calls (cfg : Config) (env : Env) (st : sensors_reading_t × World) :
    (cycle cfg env st).2.hw =
      (sensors_read_all cfg env (some st.1) (st.2.emit .watchdog_update)).2.2.hw ++
        (if (sensors_read_all cfg env (some st.1) (st.2.emit .watchdog_update)).1 = 0 then
          [.http_send_sensor_data (cycle cfg env st).1.temperature
            (cycle cfg env st).1.conductivity (cycle cfg env st).1.flow]
        else []) ++ [.vTaskDelay cfg.CYCLE_INTERVAL_MS] := by
  simp only [cycle]
  generalize sensors_read_all cfg env (some st.1) (st.2.emit .watchdog_update) = r
  obtain ⟨rc, out, w⟩ := r
  by_cases h : rc = 0
  · by_cases hs : env.http_send_sensor_data w.hw = .HTTP_OK
    · simp [h, hs, http_send_sensor_data, World.emit, World.printf]
    · simp [h, hs, http_send_sensor_data, World.emit, World.printf]
  · simp [h, World.emit, World.printf]

/-- On a present record `sensors_read_all` returns `0` exactly when the probe is
answered. -/
theorem sensors_read_all_status (cfg : Config) (env : Env) (reading : sensors_reading_t)
    (w : World) :
    (sensors_read_all cfg env (some reading) w).1 = 0 ↔
      (adc_module_is_connected cfg env w).1 = true := by
  cases hc : (adc_module_is_connected cfg env w).1 <;> simp [sensors_read_all, hc]

/-- The record a pass of the loop leaves in `sensor_data` is the one
`sensors_read_all` wrote. -/
theorem cycle_data (cfg : Config) (env : Env) (st : sensors_reading_t × World) :
    some (cycle cfg env st).1 =
      (sensors_read_all cfg env (some st.1) (st.2.emit .watchdog_update)).2.1 := by
  cases hc : (adc_module_is_connected cfg env (st.2.emit .watchdog_update)).1 <;>
    simp [cycle, sensors_read_all, hc]

set_option maxRecDepth 100000 in
/-- Scenario B evaluated: start-up on `scenarioBEnv`, then three passes, the
second with the probe unanswered. -/
theorem scenarioB_run :
    main_task sampleConfig scenarioBEnv 3 bootWorld =
      (.Running,
        { is_initialized := true
          adc := ⟨some ADS1115_I2C_ADDR, some .ADS1115_MUX_SINGLE_2,
            some .ADS1115_PGA_4_096, some .ADS1115_RATE_128_SPS⟩
          hw := transportSetup ++ [probeOp sampleConfig, .ads1115_init ADS1115_I2C_ADDR,
              .ads1115_set_pga .ADS1115_PGA_4_096,
              .ads1115_set_data_rate .ADS1115_RATE_128_SPS, .ads1115_write_config,
              .ethernet_init] ++
            [.watchdog_update, probeOp sampleConfig] ++
              channelReadOps .ADS1115_MUX_SINGLE_0 ++ channelReadOps .ADS1115_MUX_SINGLE_1 ++
              channelReadOps .ADS1115_MUX_SINGLE_2 ++
              [.http_send_sensor_data (100 / 3) 84 12, .vTaskDelay 10000] ++
            [.watchdog_update, probeOp sampleConfig, .vTaskDelay 10000] ++
            [.watchdog_update, probeOp sampleConfig] ++
              channelReadOps .ADS1115_MUX_SINGLE_0 ++ channelReadOps .ADS1115_MUX_SINGLE_1 ++
              channelReadOps .ADS1115_MUX_SINGLE_2 ++
              [.http_send_sensor_data (1300 / 33) 92 16, .vTaskDelay 10000]
          log := [.inicializando_sensores, .adc_inicializado, .sensores_inicializados,
            .iniciando_ciclos 10, .dados (100 / 3) (11 / 10) 84 (21 / 10) 12 (3 / 5),
            .perda_comunicacao, .falha_leitura,
            .dados (1300 / 33) (13 / 10) 92 (23 / 10) 16 (4 / 5)] }) := by
  decide!

/-- C9. In the loop of `main_task`, every pass makes, in order: the watchdog
reset, calls that only address the converter, then `http_send_sensor_data` once
with the record just read if `sensors_read_all` returned `0` and not at all
otherwise, then the wait of `CYCLE_INTERVAL_MS`, whatever the transmission
returns; the read returns `0` exactly when the probe is answered. After any number of passes comes another pass (the loop has no exit,
and a running `main_task` stays running). On `scenarioBEnv`, where only the
second of three passes finds the probe unanswered, the first and third passes
dispatch and the second does not. -/
theorem C9_cycle_dispatch (cfg : Config) (env : Env) (st : sensors_reading_t × World)
    (w0 : World) :
    (∃ adcOps : List HwOp, (∀ op ∈ adcOps, isAdcOp op = true) ∧
      (cycle cfg env st).2.hw =
        st.2.hw ++ [.watchdog_update] ++ adcOps ++
          (if (sensors_read_all cfg env (some st.1) (st.2.emit .watchdog_update)).1 = 0 then
            [.http_send_sensor_data (cycle cfg env st).1.temperature
              (cycle cfg env st).1.conductivity (cycle cfg env st).1.flow]
          else []) ++ [.vTaskDelay cfg.CYCLE_INTERVAL_MS]) ∧
    some (cycle cfg env st).1 =
      (sensors_read_all cfg env (some st.1) (st.2.emit .watchdog_update)).2.1 ∧
    dispatches (cycle cfg env st).2.hw =
      dispatches st.2.hw ++
        (if (sensors_read_all cfg env (some st.1) (st.2.emit .watchdog_update)).1 = 0 then
          [(cycle cfg env st).1]
        else []) ∧
    ((sensors_read_all cfg env (some st.1) (st.2.emit .watchdog_update)).1 = 0 ↔
      (adc_module_is_connected cfg env (st.2.emit .watchdog_update)).1 = true) ∧
    (∀ n, main_loop cfg env (n + 1) st = cycle cfg env (main_loop cfg env n st)) ∧
    (∀ n, (main_task cfg env n w0).1 = .Running →
      (main_task cfg env (n + 1) w0).1 = .Running ∧
      ∃ data, (main_task cfg env (n + 1) w0).2 =
        (cycle cfg env (data, (main_task cfg env n w0).2)).2) ∧
    ((main_task sampleConfig scenarioBEnv 3 bootWorld).1 = .Running ∧
      (main_task sampleConfig scenarioBEnv 3 bootWorld).2.hw =
        transportSetup ++ [probeOp sampleConfig, .ads1115_init ADS1115_I2C_ADDR,
            .ads1115_set_pga .ADS1115_PGA_4_096,
            .ads1115_set_data_rate .ADS1115_RATE_128_SPS, .ads1115_write_config,
            .ethernet_init] ++
          [.watchdog_update, probeOp sampleConfig] ++
            channelReadOps .ADS1115_MUX_SINGLE_0 ++ channelReadOps .ADS1115_MUX_SINGLE_1 ++
            channelReadOps .ADS1115_MUX_SINGLE_2 ++
            [.http_send_sensor_data (100 / 3) 84 12, .vTaskDelay 10000] ++
          [.watchdog_update, probeOp sampleConfig, .vTaskDelay 10000] ++
          [.watchdog_update, probeOp sampleConfig] ++
            channelReadOps .ADS1115_MUX_SINGLE_0 ++ channelReadOps .ADS1115_MUX_SINGLE_1 ++
            channelReadOps .ADS1115_MUX_SINGLE_2 ++
            [.http_send_sensor_data (1300 / 33) 92 16, .vTaskDelay 10000]) := by
  obtain ⟨ops, hops, hadc⟩ :=
    sensors_read_all_calls cfg env st.1 (st.2.emit .watchdog_update)
  have hcalls := cycle_calls cfg env st
  rw [hops] at hcalls
  have hw : (st.2.emit .watchdog_update).hw = st.2.hw ++ [.watchdog_update] := rfl
  rw [hw] at hcalls
  refine ⟨⟨ops, hadc, hcalls⟩, cycle_data cfg env st, ?_,
    sensors_read_all_status cfg env st.1 _, fun n => main_loop_succ cfg env n st, ?_, ?_⟩
  · rw [hcalls]
    simp only [dispatches_append, dispatches_adc_ops ops hadc]
    split_ifs <;> simp [dispatches]
  · intro n hn
    rw [main_task_state] at hn
    refine ⟨by rw [main_task_state]; exact hn, ?_⟩
    by_cases h1 : (sensors_init cfg env w0).1 = 0
    · by_cases h2 : env.ethernet_init (sensors_init cfg env w0).2.hw = 0
      · simp only [main_task, ethernet_init, h1, h2, ne_eq, not_true_eq_false, if_false]
        rw [main_loop_succ]
        exact ⟨_, rfl⟩
      · simp [h1, h2, ethernet_init] at hn
    · simp [h1] at hn
  · rw [scenarioB_run]
    exact ⟨rfl, rfl⟩

/-- Calls that address the converter are no watchdog reset. -/
theorem count_watchdog_of_adc_ops (ops : List HwOp) (h : ∀ op ∈ ops, isAdcOp op = true) :
    ops.count .watchdog_update = 0 := by
  rw [List.count_eq_zero]
  intro hmem
  have := h _ hmem
  simp [isAdcOp] at this

/-- Calls outside the loop are no watchdog reset. -/
theorem count_watchdog_of_init_calls (ops : List HwOp)
    (h : ∀ op ∈ ops, isCycleOp op = false ∧ op ≠ .ethernet_init) :
    ops.count .watchdog_update = 0 := by
  rw [List.count_eq_zero]
  intro hmem
  have := (h _ hmem).1
  simp [isCycleOp] at this

/-- Every pass of the loop resets the watchdog exactly once. -/
theorem cycle_watchdog_count (cfg : Config) (env : Env) (st : sensors_reading_t × World) :
    (cycle cfg env st).2.hw.count .watchdog_update =
      st.2.hw.count .watchdog_update + 1 := by
  obtain ⟨ops, hops, hadc⟩ :=
    sensors_read_all_calls cfg env st.1 (st.2.emit .watchdog_update)
  have hcalls := cycle_calls cfg env st
  rw [hops] at hcalls
  have hw : (st.2.emit .watchdog_update).hw = st.2.hw ++ [.watchdog_update] := rfl
  rw [hw] at hcalls
  rw [hcalls]
  simp only [List.count_append, count_watchdog_of_adc_ops ops hadc]
  split_ifs <;> simp

/-- After `n` passes the watchdog has been reset `n` times more. -/
theorem main_loop_watchdog_count (cfg : Config) (env : Env) (n : Nat)
    (st : sensors_reading_t × World) :
    (main_loop cfg env n st).2.hw.count .watchdog_update =
      st.2.hw.count .watchdog_update + n := by
  induction n generalizing st with
  | zero => rfl
  | succ k ih =>
    show (main_loop cfg env k (cycle cfg env st)).2.hw.count .watchdog_update = _
    rw [ih, cycle_watchdog_count]
    omega

/-- A pass of the loop keeps the calls made before it and begins with the
watchdog reset. -/
theorem cycle_first_call (cfg : Config) (env : Env) (st : sensors_reading_t × World) :
    ∃ rest, (cycle cfg env st).2.hw = st.2.hw ++ .watchdog_update :: rest := by
  obtain ⟨ops, hops, -⟩ :=
    sensors_read_all_calls cfg env st.1 (st.2.emit .watchdog_update)
  have hcalls := cycle_calls cfg env st
  rw [hops] at hcalls
  have hw : (st.2.emit .watchdog_update).hw = st.2.hw ++ [.watchdog_update] := rfl
  rw [hw] at hcalls
  refine ⟨ops ++ (if (sensors_read_all cfg env (some st.1)
      (st.2.emit .watchdog_update)).1 = 0 then
        [.http_send_sensor_data (cycle cfg env st).1.temperature
          (cycle cfg env st).1.conductivity (cycle cfg env st).1.flow]
      else []) ++ [.vTaskDelay cfg.CYCLE_INTERVAL_MS], ?_⟩
  rw [hcalls]
  simp only [List.append_assoc, List.singleton_append, List.cons_append, List.nil_append]

/-- The passes of the loop keep the calls made before them. -/
theorem main_loop_calls_extend (cfg : Config) (env : Env) (n : Nat)
    (st : sensors_reading_t × World) :
    ∃ ops, (main_loop cfg env n st).2.hw = st.2.hw ++ ops := by
  induction n generalizing st with
  | zero => exact ⟨[], by simp [main_loop]⟩
  | succ k ih =>
    obtain ⟨ops, hops⟩ := ih (cycle cfg env st)
    obtain ⟨rest, hrest⟩ := cycle_first_call cfg env st
    refine ⟨.watchdog_update :: rest ++ ops, ?_⟩
    show (main_loop cfg env k (cycle cfg env st)).2.hw = _
    rw [hops, hrest]
    simp

/-- The first call of a run of at least one pass is the watchdog reset. -/
theorem main_loop_first_call (cfg : Config) (env : Env) (n : Nat)
    (st : sensors_reading_t × World) :
    ∃ rest, (main_loop cfg env (n + 1) st).2.hw = st.2.hw ++ .watchdog_update :: rest := by
  obtain ⟨ops, hops⟩ := main_loop_calls_extend cfg env n (cycle cfg env st)
  obtain ⟨rest, hrest⟩ := cycle_first_call cfg env st
  refine ⟨rest ++ ops, ?_⟩
  show (main_loop cfg env n (cycle cfg env st)).2.hw = _
  rw [hops, hrest]
  simp

/-- C10. `main_task` reaches the cycle loop exactly when `sensors_init` and then
`ethernet_init` both return `0`. If `sensors_init` fails the task halts with
`vTaskDelete` as the only further call; in particular at a start-up with the
flag false and the probe unanswered, `adc_module_init` returns
`ADC_STATUS_INIT_FAILED`, `sensors_init` returns `1` and the calls made are the
transport set-up, the probe and `vTaskDelete` (no `ethernet_init`, no watchdog
reset, no channel read, no dispatch). If `sensors_init` succeeds and
`ethernet_init` fails, the calls after `sensors_init` are `ethernet_init` and
`vTaskDelete`. `sensors_init` fails only at such a start-up, and a halted task
has made no call that belongs to a pass of the loop. When both return `0` the
task goes on into the loop: after `cycles` passes have been observed its world
is that of `main_loop` started on the world `ethernet_init` left, the watchdog
has been reset exactly `cycles` times more than before the task started, and
the first call after `ethernet_init` is the watchdog reset of the first pass. -/
theorem C10_loop_entered_iff_both_inits (cfg : Config) (env : Env) (cycles : Nat)
    (w : World) :
    ((main_task cfg env cycles w).1 = .Running ↔
      (sensors_init cfg env w).1 = 0 ∧
        (ethernet_init env (sensors_init cfg env w).2).1 = 0) ∧
    ((sensors_init cfg env w).1 ≠ 0 →
      (main_task cfg env cycles w).1 = .Halted ∧
      (main_task cfg env cycles w).2.hw =
        (sensors_init cfg env w).2.hw ++ [.vTaskDelete]) ∧
    (w.is_initialized = false →
      env.i2c_read_timeout_us (w.hw ++ transportSetup) ≠ 1 →
      (adc_module_init cfg env (w.printf .inicializando_sensores)).1 =
        .ADC_STATUS_INIT_FAILED ∧
      (sensors_init cfg env w).1 = 1 ∧
      (main_task cfg env cycles w).1 = .Halted ∧
      (main_task cfg env cycles w).2.hw =
        w.hw ++ transportSetup ++ [probeOp cfg, .vTaskDelete]) ∧
    ((sensors_init cfg env w).1 = 0 →
      (ethernet_init env (sensors_init cfg env w).2).1 ≠ 0 →
      (main_task cfg env cycles w).1 = .Halted ∧
      (main_task cfg env cycles w).2.hw =
        (sensors_init cfg env w).2.hw ++ [.ethernet_init, .vTaskDelete]) ∧
    ((sensors_init cfg env w).1 ≠ 0 ↔
      (w.is_initialized = false ∧
        env.i2c_read_timeout_us (w.hw ++ transportSetup) ≠ 1)) ∧
    ((main_task cfg env cycles w).1 = .Halted →
      ∃ ops, (main_task cfg env cycles w).2.hw = w.hw ++ ops ∧
        ∀ op ∈ ops, isCycleOp op = false) ∧
    ((sensors_init cfg env w).1 = 0 →
      (ethernet_init env (sensors_init cfg env w).2).1 = 0 →
      (main_task cfg env cycles w).2 =
        (main_loop cfg env cycles
          (⟨env.indeterminate, env.indeterminate, env.indeterminate⟩,
            (ethernet_init env (sensors_init cfg env w).2).2.printf
              (.iniciando_ciclos (cfg.CYCLE_INTERVAL_MS / 1000)))).2 ∧
      (main_task cfg env cycles w).2.hw.count .watchdog_update =
        w.hw.count .watchdog_update + cycles ∧
      (0 < cycles → ∃ rest, (main_task cfg env cycles w).2.hw =
        (sensors_init cfg env w).2.hw ++ .ethernet_init :: .watchdog_update :: rest)) := by
  refine ⟨?_, ?_, ?_, ?_, sensors_init_fails_iff cfg env w, ?_, ?_⟩
  · rw [main_task_state]
    split_ifs with h1 h2 <;> simp_all
  · intro h
    simp [main_task, h, World.emit, World.printf]
  · intro hi hp
    have hp2 : ¬ env.i2c_read_timeout_us
        (w.hw ++ [HwOp.i2c_init I2C_FREQ, HwOp.gpio_set_function SDA_PIN,
          HwOp.gpio_set_function SCL_PIN, HwOp.gpio_pull_up SDA_PIN,
          HwOp.gpio_pull_up SCL_PIN]) = 1 := hp
    simp [main_task, sensors_init, adc_module_init, adc_module_is_connected, World.emit,
      World.printf, hi, hp2, transportSetup, probeOp]
  · intro h1 h2
    have h3 : ¬ env.ethernet_init (sensors_init cfg env w).2.hw = 0 := h2
    simp [main_task, h1, h3, World.emit, World.printf, ethernet_init]
  · intro hh
    obtain ⟨ops, hops, hno⟩ := sensors_init_calls cfg env w
    by_cases h1 : (sensors_init cfg env w).1 = 0
    · by_cases h3 : env.ethernet_init (sensors_init cfg env w).2.hw = 0
      · rw [main_task_state] at hh
        simp [h1, h3, ethernet_init] at hh
      · refine ⟨ops ++ [.ethernet_init, .vTaskDelete], ?_, ?_⟩
        · rw [← List.append_assoc, ← hops]
          simp [main_task, h1, h3, World.emit, World.printf, ethernet_init]
        · intro op hop
          simp only [List.mem_append, List.mem_cons, List.mem_singleton,
            List.not_mem_nil, or_false] at hop
          rcases hop with h | rfl | rfl
          · exact (hno op h).1
          · rfl
          · rfl
    · refine ⟨ops ++ [.vTaskDelete], ?_, ?_⟩
      · rw [← List.append_assoc, ← hops]
        simp [main_task, h1, World.emit, World.printf]
      · intro op hop
        simp only [List.mem_append, List.mem_singleton] at hop
        rcases hop with h | rfl
        · exact (hno op h).1
        · rfl
  · intro h1 h2
    have h3 : env.ethernet_init (sensors_init cfg env w).2.hw = 0 := h2
    have hrun : (main_task cfg env cycles w).2 =
        (main_loop cfg env cycles
          (⟨env.indeterminate, env.indeterminate, env.indeterminate⟩,
            (ethernet_init env (sensors_init cfg env w).2).2.printf
              (.iniciando_ciclos (cfg.CYCLE_INTERVAL_MS / 1000)))).2 := by
      simp [main_task, h1, h3, ethernet_init]
    obtain ⟨ops, hops, hno⟩ := sensors_init_calls cfg env w
    have hstart : ((ethernet_init env (sensors_init cfg env w).2).2.printf
        (.iniciando_ciclos (cfg.CYCLE_INTERVAL_MS / 1000))).hw =
        (sensors_init cfg env w).2.hw ++ [.ethernet_init] := rfl
    refine ⟨hrun, ?_, ?_⟩
    · rw [hrun, main_loop_watchdog_count]
      show List.count HwOp.watchdog_update
        ((ethernet_init env (sensors_init cfg env w).2).2.printf
          (.iniciando_ciclos (cfg.CYCLE_INTERVAL_MS / 1000))).hw + cycles = _
      rw [hstart, hops, List.count_append, List.count_append,
        count_watchdog_of_init_calls ops hno]
      simp
    · intro hpos
      obtain ⟨n, rfl⟩ : ∃ n, cycles = n + 1 := ⟨cycles - 1, by omega⟩
      obtain ⟨rest, hrest⟩ := main_loop_first_call cfg env n
        (⟨env.indeterminate, env.indeterminate, env.indeterminate⟩,
          (ethernet_init env (sensors_init cfg env w).2).2.printf
            (.iniciando_ciclos (cfg.CYCLE_INTERVAL_MS / 1000)))
      refine ⟨rest, ?_⟩
      rw [hrun, hrest]
      show ((ethernet_init env (sensors_init cfg env w).2).2.printf
          (.iniciando_ciclos (cfg.CYCLE_INTERVAL_MS / 1000))).hw ++ _ = _
      rw [hstart]
      simp

/-- C10 at power-on: with the device absent the task halts after the transport
set-up, the probe and `vTaskDelete`; with it present the loop runs, and over
three passes the watchdog is reset three times, first right after
`ethernet_init`. -/
theorem C10_loop_entered_iff_both_inits_witness :
    (main_task sampleConfig absentEnv 3 bootWorld).1 = .Halted ∧
    (main_task sampleConfig absentEnv 3 bootWorld).2.hw =
      transportSetup ++ [probeOp sampleConfig, .vTaskDelete] ∧
    (main_task sampleConfig sampleEnv 3 bootWorld).1 = .Running ∧
    (main_task sampleConfig sampleEnv 3 bootWorld).2.hw.count .watchdog_update = 3 ∧
    (∃ rest, (main_task sampleConfig sampleEnv 3 bootWorld).2.hw =
      (sensors_init sampleConfig sampleEnv bootWorld).2.hw ++
        .ethernet_init :: .watchdog_update :: rest) :=
  have h := (C10_loop_entered_iff_both_inits sampleConfig absentEnv 3 bootWorld).2.2.1
    rfl (by decide)
  have hrun := (C10_loop_entered_iff_both_inits sampleConfig sampleEnv 3 bootWorld).2.2.2.2.2.2
    (by decide) (by decide)
  ⟨h.2.2.1, h.2.2.2,
    (C10_loop_entered_iff_both_inits sampleConfig sampleEnv 3 bootWorld).1.mpr
      ⟨by decide, by decide⟩,
    hrun.2.1, hrun.2.2 (by decide)⟩

end CIP
